import Mathlib

/-!
Verification of the scenario-resolution and comparison-table logic of the
Child Tax Credit dashboard (src/app.py).

The embedding models a pandas DataFrame as a list of rows.  Every row
carries the four scenario-key columns used by `filter_data` (`type`,
`ctc_c`, `u6_bonus`, `ps`) as typed fields, and all remaining columns as
an association list from column name to cell value.  Cell values are
either rationals (numeric columns) or strings; Python exceptions that the
dashboard code can raise per interaction (KeyError, IndexError, TypeError)
are modelled with an `Except` error type, so a crashing callback is a
`.error` result and a rendered figure is an `.ok` result.
-/

namespace TaxDash

/-- A cell value of a dataset column: a rational number or a string. -/
inductive Val where
  | num (q : ℚ)
  | str (s : String)
deriving DecidableEq, Repr

/-- The Python exceptions the dashboard code can raise while handling one
interaction: `KeyError` (missing dict key or column), `IndexError`
(`.values[0]` on an empty column) and `TypeError` (subtraction of
non-numeric values). -/
inductive PyErr where
  | keyError (k : String)
  | indexError
  | typeError
deriving DecidableEq, Repr

/-- One row of a dataset.  The four scenario-key columns that
`filter_data` in src/app.py reads are typed fields; every other column
lives in the `cols` association list. -/
structure Row where
  type : String
  ctc_c : Int
  u6_bonus : Int
  ps : String
  cols : List (String × Val)
deriving DecidableEq, Repr

/-- A dataset, as loaded from one of the four CSV files: an ordered list
of rows. -/
abbrev DataFrame := List Row

/-- A flat value mapping (a Python dict), as assembled by `update_graph`
and consumed by the two table builders. -/
abbrev Dict := List (String × Val)

/-- The fixed named-scenario lookup dict from `filter_data` in
src/app.py: `cl -> CL`, `tcja -> TCJA`, `house25 -> House25`,
`senate25 -> Senate25`. -/
def lookup_tbl : List (String × String) :=
  [("cl", "CL"), ("tcja", "TCJA"), ("house25", "House25"), ("senate25", "Senate25")]

/-- Embeds `filter_data(df, policy, refund, ctc_c, u6_bonus, ps)` from
src/app.py.  A named policy selects the rows whose `type` column equals
the mapped string; the `custom` policy is a conjunctive exact match on
the four custom columns; anything else returns an empty frame.  The
`none` branch of the lookup is unreachable because the membership guard
lists exactly the keys of `lookup_tbl`. -/
def filter_data (df : DataFrame) (policy refund : String)
    (ctc_c u6_bonus : Int) (ps : String) : DataFrame :=
  if policy = "cl" ∨ policy = "tcja" ∨ policy = "house25" ∨ policy = "senate25" then
    match lookup_tbl.lookup policy with
    | some t => df.filter (fun r => r.type == t)
    | none => []
  else if policy = "custom" then
    df.filter (fun r =>
      r.type == refund && r.ctc_c == ctc_c && r.u6_bonus == u6_bonus && r.ps == ps)
  else []

/-- Rounding of a rational to the nearest integer with ties to even, the
mode the Python built-in `round` uses.  With `f` the floor of `x`, the
integer `r2 = 2 * x.den * (x - f)` compares against `x.den` exactly as
the fractional part of `x` compares against one half, so the three
branches are fraction below one half, fraction above one half, and the
tie broken to the even neighbour. -/
def roundHalfEven (x : ℚ) : ℤ :=
  let f := x.floor
  let r2 := 2 * (x.num - f * (x.den : ℤ))
  if r2 < (x.den : ℤ) then f
  else if r2 > (x.den : ℤ) then f + 1
  else if f % 2 = 0 then f else f + 1

/-- Embeds Python `round(x, 1)`: round half-to-even at one decimal
place. -/
def pyRound1 (x : ℚ) : ℚ := (roundHalfEven (10 * x) : ℚ) / 10

/-- Looks a key up in a dict, as Python `d[k]`: a missing key raises
`KeyError(k)`. -/
def dictGet (d : Dict) (k : String) : Except PyErr Val :=
  match d.lookup k with
  | some v => Except.ok v
  | none => Except.error (PyErr.keyError k)

/-- Embeds Python subtraction `a - b` on two cell values: defined on
numbers, a `TypeError` otherwise. -/
def vsub (a b : Val) : Except PyErr ℚ :=
  match a, b with
  | Val.num x, Val.num y => Except.ok (x - y)
  | _, _ => Except.error PyErr.typeError

/-- The figure handed to the plotting layer: the table header labels, the
cell columns (column-major, as in `go.Table`), and the layout title. -/
structure Figure where
  headers : List String
  cells : List (List Val)
  title : String
deriving DecidableEq, Repr

/-- Every string appearing in a figure: header labels, string cells in
column order, and the title. -/
def figStrings (f : Figure) : List String :=
  f.headers
    ++ f.cells.flatten.filterMap (fun v =>
        match v with
        | Val.str s => some s
        | Val.num _ => none)
    ++ [f.title]

/-- The fixed (label, key) field specification of the summary view, in
the exact order of the `rows` list of `build_summary_table` in
src/app.py. -/
def summarySpec : List (String × String) :=
  [("Annual Value of All Child Tax Benefits (2025 $)", "value_all"),
   ("Annual Value of Child Tax Credit (2025 $)", "value_ctc"),
   ("Average Total Benefit ($)", "mean"),
   ("Percent Change in After-Tax Income (%)", "pc_aftertaxinc"),
   ("EMTR on Labor (%)", "metr_reform"),
   ("SPM Poverty Rate - Total U.S. (%)", "spm_all"),
   ("SPM Poverty Rate - Under 18 (%)", "spm_u18")]

/-- The fixed (label, key) field specification of the parameter view, in
the exact order of the `rows` list of `build_param_table` in
src/app.py. -/
def paramSpec : List (String × String) :=
  [("Maximum Credit Amount", "max_c"),
   ("Bonus Under 6", "bon6"),
   ("Max Refundable Amount", "max_r"),
   ("Qualifying Ages", "q_age"),
   ("Refund Threshold", "thresh"),
   ("Phase-In Rate", "pir"),
   ("Phaseout Start", "pos"),
   ("Phaseout Rate", "por")]

/-- Builds the `rows` list of a table builder: for each spec entry, in
order, look the key up in the baseline dict and then in the reform dict,
exactly as the literal tuple list in src/app.py evaluates.  The first
missing key raises its `KeyError`. -/
def tableRows (spec : List (String × String)) (base_vals reform_vals : Dict) :
    Except PyErr (List (String × Val × Val)) :=
  match spec with
  | [] => Except.ok []
  | lk :: rest => do
    let b ← dictGet base_vals lk.2
    let r ← dictGet reform_vals lk.2
    let tail ← tableRows rest base_vals reform_vals
    pure ((lk.1, b, r) :: tail)

/-- Builds the difference column of the summary table: the list
comprehension `round(r - b, 1) for b, r in zip` of src/app.py, element
by element in order.  A non-numeric pair raises `TypeError`. -/
def diffsOf (rows : List (String × Val × Val)) : Except PyErr (List ℚ) :=
  match rows with
  | [] => Except.ok []
  | t :: rest => do
    let d ← vsub t.2.2 t.2.1
    let tail ← diffsOf rest
    pure (pyRound1 d :: tail)

/-- Embeds `build_summary_table(base_vals, reform_vals)` from src/app.py:
seven fixed rows, cells of label / baseline / reform / rounded
difference columns, and the figure title. -/
def build_summary_table (base_vals reform_vals : Dict) : Except PyErr Figure := do
  let rows ← tableRows summarySpec base_vals reform_vals
  let diffs ← diffsOf rows
  pure { headers := ["", "Baseline Policy", "Reform Policy", "Difference"],
         cells := [rows.map (fun t => Val.str t.1),
                   rows.map (fun t => t.2.1),
                   rows.map (fun t => t.2.2),
                   diffs.map Val.num],
         title := "Comparing Baseline and Reform" }

/-- Embeds `build_param_table(base_vals, reform_vals)` from src/app.py:
eight fixed rows, cells of label / baseline / reform columns (no
difference column), and the figure title. -/
def build_param_table (base_vals reform_vals : Dict) : Except PyErr Figure := do
  let rows ← tableRows paramSpec base_vals reform_vals
  pure { headers := ["", "Baseline Policy", "Reform Policy"],
         cells := [rows.map (fun t => Val.str t.1),
                   rows.map (fun t => t.2.1),
                   rows.map (fun t => t.2.2)],
         title := "Policy Parameters" }

/-- Reads a non-key column of one row, as pandas column access does on a
well-formed frame: a column absent from the row raises `KeyError`. -/
def rowGet (r : Row) (c : String) : Except PyErr Val :=
  match r.cols.lookup c with
  | some v => Except.ok v
  | none => Except.error (PyErr.keyError c)

/-- Embeds the pandas column read `df[c].values`: the list of the cell
values of column `c`, row by row. -/
def getCol (df : DataFrame) (c : String) : Except PyErr (List Val) :=
  df.mapM (fun r => rowGet r c)

/-- Embeds Python list indexing `xs[0]`: an empty list raises
`IndexError`. -/
def values0 : List Val → Except PyErr Val
  | [] => Except.error PyErr.indexError
  | v :: _ => Except.ok v

/-- Embeds the extraction pattern `df[c].values[0]` used throughout
`update_graph` in src/app.py. -/
def colFirst (df : DataFrame) (c : String) : Except PyErr Val := do
  values0 (← getCol df c)

/-- Embeds the implicit distribution-table filter
`df[df["decile"] == "ALL"]` from `update_graph` in src/app.py. -/
def filterDecileAll (df : DataFrame) : DataFrame :=
  df.filter (fun r => r.cols.lookup "decile" == some (Val.str "ALL"))

/-- Builds one of the two value dicts of `update_graph` in src/app.py
from the four filtered frames of one scenario side, with the fifteen
extractions in the literal order of the Python dict display.  The first
failing extraction raises its exception. -/
def make_vals (bud pov dist par : DataFrame) : Except PyErr Dict := do
  let value_all ← colFirst bud "value_all"
  let value_ctc ← colFirst bud "value_ctc"
  let mean ← colFirst (filterDecileAll dist) "mean"
  let pc_aftertaxinc ← colFirst (filterDecileAll dist) "pc_aftertaxinc"
  let metr_reform ← colFirst (filterDecileAll dist) "metr_reform"
  let spm_all ← colFirst pov "spm_all"
  let spm_u18 ← colFirst pov "spm_u18"
  let max_c ← colFirst par "max_c"
  let bon6 ← colFirst par "bon6"
  let max_r ← colFirst par "max_r"
  let q_age ← colFirst par "q_age"
  let thresh ← colFirst par "thresh"
  let pir ← colFirst par "pir"
  let pos ← colFirst par "pos"
  let por ← colFirst par "por"
  pure [("value_all", value_all), ("value_ctc", value_ctc), ("mean", mean),
        ("pc_aftertaxinc", pc_aftertaxinc), ("metr_reform", metr_reform),
        ("spm_all", spm_all), ("spm_u18", spm_u18), ("max_c", max_c),
        ("bon6", bon6), ("max_r", max_r), ("q_age", q_age),
        ("thresh", thresh), ("pir", pir), ("pos", pos), ("por", por)]

/-- Embeds the `update_graph` callback from src/app.py: filter the four
datasets for the baseline and the reform selection, assemble the two
value dicts (baseline first, then reform), and build the table the
selected tab asks for.  A raised Python exception surfaces as an
`Except.error`. -/
def update_graph (budget_df poverty_df dists_df params_df : DataFrame)
    (base reform refund : String) (ctc_c u6_bonus : Int) (ps tabs : String) :
    Except PyErr Figure := do
  let base_vals ← make_vals (filter_data budget_df base refund ctc_c u6_bonus ps)
      (filter_data poverty_df base refund ctc_c u6_bonus ps)
      (filter_data dists_df base refund ctc_c u6_bonus ps)
      (filter_data params_df base refund ctc_c u6_bonus ps)
  let reform_vals ← make_vals (filter_data budget_df reform refund ctc_c u6_bonus ps)
      (filter_data poverty_df reform refund ctc_c u6_bonus ps)
      (filter_data dists_df reform refund ctc_c u6_bonus ps)
      (filter_data params_df reform refund ctc_c u6_bonus ps)
  if tabs = "summary_tab" then build_summary_table base_vals reform_vals
  else build_param_table base_vals reform_vals

/-- A summary dict holding the seven summary fields with given numeric
values, in the layout `make_vals` produces for those keys. -/
def mkSummaryDict (v1 v2 v3 v4 v5 v6 v7 : ℚ) : Dict :=
  [("value_all", Val.num v1), ("value_ctc", Val.num v2), ("mean", Val.num v3),
   ("pc_aftertaxinc", Val.num v4), ("metr_reform", Val.num v5),
   ("spm_all", Val.num v6), ("spm_u18", Val.num v7)]

/-- A parameter dict holding the eight parameter fields with given
numeric values. -/
def mkParamDict (v1 v2 v3 v4 v5 v6 v7 v8 : ℚ) : Dict :=
  [("max_c", Val.num v1), ("bon6", Val.num v2), ("max_r", Val.num v3),
   ("q_age", Val.num v4), ("thresh", Val.num v5), ("pir", Val.num v6),
   ("pos", Val.num v7), ("por", Val.num v8)]

/-- A concrete complete baseline summary dict. -/
def sumB : Dict := mkSummaryDict 100 80 120 1 30 12 15

/-- A concrete complete reform summary dict. -/
def sumR : Dict := mkSummaryDict 110 85 95 2 29 11 14

/-- The baseline summary dict `sumB` with the `mean` entry removed. -/
def sumNoMean : Dict :=
  [("value_all", Val.num 100), ("value_ctc", Val.num 80),
   ("pc_aftertaxinc", Val.num 1), ("metr_reform", Val.num 30),
   ("spm_all", Val.num 12), ("spm_u18", Val.num 15)]

/-- A concrete complete baseline parameter dict. -/
def parB : Dict := mkParamDict 2000 0 1700 16 2500 15 400000 5

/-- A concrete complete reform parameter dict, differing from `parB` on
the numeric `max_c` and `bon6` fields. -/
def parR : Dict := mkParamDict 3000 500 1700 16 2500 15 400000 5

/-- A one-row frame whose row is a custom-scenario row, used to exercise
the conjunctive custom filter. -/
def customDf : DataFrame :=
  [{ type := "Nonref", ctc_c := 2000, u6_bonus := 0, ps := "CL", cols := [] }]

/-- A frame holding exactly one current-law row, used to exercise the
named-scenario filter. -/
def namedDf : DataFrame :=
  [{ type := "CL", ctc_c := 0, u6_bonus := 0, ps := "", cols := [] },
   { type := "TCJA", ctc_c := 0, u6_bonus := 0, ps := "", cols := [] }]

/-- A concrete budget frame holding current-law data only. -/
def budget0 : DataFrame :=
  [{ type := "CL", ctc_c := 0, u6_bonus := 0, ps := "",
     cols := [("value_all", Val.num 100), ("value_ctc", Val.num 80)] }]

/-- A concrete poverty frame holding current-law data only. -/
def poverty0 : DataFrame :=
  [{ type := "CL", ctc_c := 0, u6_bonus := 0, ps := "",
     cols := [("spm_all", Val.num 12), ("spm_u18", Val.num 15)] }]

/-- A concrete distribution frame holding the current-law ALL-decile row
only. -/
def dists0 : DataFrame :=
  [{ type := "CL", ctc_c := 0, u6_bonus := 0, ps := "",
     cols := [("decile", Val.str "ALL"), ("mean", Val.num 120),
              ("pc_aftertaxinc", Val.num 1), ("metr_reform", Val.num 30)] }]

/-- A concrete parameter frame holding current-law data only. -/
def params0 : DataFrame :=
  [{ type := "CL", ctc_c := 0, u6_bonus := 0, ps := "",
     cols := [("max_c", Val.num 2000), ("bon6", Val.num 0),
              ("max_r", Val.num 1700), ("q_age", Val.num 16),
              ("thresh", Val.num 2500), ("pir", Val.num 15),
              ("pos", Val.num 400000), ("por", Val.num 5)] }]

theorem filter_data_custom (df : DataFrame) (refund : String) (c u : Int) (p : String) :
    filter_data df "custom" refund c u p =
      df.filter (fun r => r.type == refund && r.ctc_c == c && r.u6_bonus == u && r.ps == p) := rfl

theorem filter_length_countP (l : List Row) (p : Row → Bool) :
    (l.filter p).length = l.countP p := by
  induction l with
  | nil => rfl
  | cons h t ih => by_cases hp : p h <;> simp [List.filter_cons, List.countP_cons, hp, ih]

/-- C2: for the custom scenario key, filter_data is a pure conjunctive
filter: a row is returned exactly when all four custom fields match, and
if no row of the frame matches the supplied combination the result is
empty. -/
theorem C2_custom_conjunctive_filter (df : DataFrame) (refund : String)
    (ctc u6 : Int) (ps : String) :
    (∀ row, row ∈ filter_data df "custom" refund ctc u6 ps ↔
        row ∈ df ∧ row.type = refund ∧ row.ctc_c = ctc ∧ row.u6_bonus = u6 ∧ row.ps = ps) ∧
    ((∀ row ∈ df, ¬(row.type = refund ∧ row.ctc_c = ctc ∧ row.u6_bonus = u6 ∧ row.ps = ps)) →
        filter_data df "custom" refund ctc u6 ps = []) := by
  have hiff : ∀ row, row ∈ filter_data df "custom" refund ctc u6 ps ↔
      row ∈ df ∧ row.type = refund ∧ row.ctc_c = ctc ∧ row.u6_bonus = u6 ∧ row.ps = ps := by
    intro row
    rw [filter_data_custom]
    simp [List.mem_filter, and_assoc]
  refine ⟨hiff, ?_⟩
  intro h
  rw [List.eq_nil_iff_forall_not_mem]
  intro row hrow
  rcases (hiff row).1 hrow with ⟨hdf, hcond⟩
  exact h row hdf hcond

theorem C2_witness : filter_data customDf "custom" "Refund" 2000 0 "CL" = [] :=
  (C2_custom_conjunctive_filter customDf "Refund" 2000 0 "CL").2 (by decide)

/-- C3: each named scenario key resolves by exact match on the type
column through the fixed mapping table, and when the frame holds exactly
one row of the mapped type, exactly one row is returned. -/
theorem C3_named_type_mapping (df : DataFrame) (refund : String)
    (ctc u6 : Int) (ps : String) :
    filter_data df "cl" refund ctc u6 ps = df.filter (fun r => r.type == "CL") ∧
    filter_data df "tcja" refund ctc u6 ps = df.filter (fun r => r.type == "TCJA") ∧
    filter_data df "house25" refund ctc u6 ps = df.filter (fun r => r.type == "House25") ∧
    filter_data df "senate25" refund ctc u6 ps = df.filter (fun r => r.type == "Senate25") ∧
    ∀ policy t, lookup_tbl.lookup policy = some t →
      df.countP (fun r => r.type == t) = 1 →
      (filter_data df policy refund ctc u6 ps).length = 1 := by
  refine ⟨rfl, rfl, rfl, rfl, ?_⟩
  intro policy t hl hc
  simp only [lookup_tbl, List.lookup] at hl
  split at hl
  case _ heq =>
    rw [eq_of_beq heq]
    rw [show filter_data df "cl" refund ctc u6 ps = df.filter (fun r => r.type == "CL") from rfl]
    rw [filter_length_countP]
    rw [← Option.some_inj.mp hl] at hc
    exact hc
  case _ =>
    split at hl
    case _ heq =>
      rw [eq_of_beq heq]
      rw [show filter_data df "tcja" refund ctc u6 ps = df.filter (fun r => r.type == "TCJA") from rfl]
      rw [filter_length_countP]
      rw [← Option.some_inj.mp hl] at hc
      exact hc
    case _ =>
      split at hl
      case _ heq =>
        rw [eq_of_beq heq]
        rw [show filter_data df "house25" refund ctc u6 ps = df.filter (fun r => r.type == "House25") from rfl]
        rw [filter_length_countP]
        rw [← Option.some_inj.mp hl] at hc
        exact hc
      case _ =>
        split at hl
        case _ heq =>
          rw [eq_of_beq heq]
          rw [show filter_data df "senate25" refund ctc u6 ps = df.filter (fun r => r.type == "Senate25") from rfl]
          rw [filter_length_countP]
          rw [← Option.some_inj.mp hl] at hc
          exact hc
        case _ => cases hl

theorem C3_witness : (filter_data namedDf "cl" "Nonref" 2000 0 "CL").length = 1 :=
  (C3_named_type_mapping namedDf "Nonref" 2000 0 "CL").2.2.2.2 "cl" "CL" rfl (by decide)

/-- C7: a scenario selector outside the four named keys and custom
resolves to the empty frame, the same value a no-matching-data custom
lookup produces, rather than an exception. -/
theorem C7_unknown_scenario_empty (df : DataFrame) (policy refund : String)
    (ctc u6 : Int) (ps : String)
    (h1 : policy ≠ "cl") (h2 : policy ≠ "tcja") (h3 : policy ≠ "house25")
    (h4 : policy ≠ "senate25") (h5 : policy ≠ "custom") :
    filter_data df policy refund ctc u6 ps = [] := by
  simp [filter_data, h1, h2, h3, h4, h5]

theorem C7_witness : filter_data customDf "obbb" "Nonref" 2000 0 "CL" = [] :=
  C7_unknown_scenario_empty customDf "obbb" "Nonref" 2000 0 "CL"
    (by decide) (by decide) (by decide) (by decide) (by decide)

/-- C10: for a named scenario key the four custom parameters do not
influence resolution: any two custom parameter tuples give the same
filtered frame. -/
theorem C10_named_ignores_custom_params (df : DataFrame) (policy : String)
    (hp : policy = "cl" ∨ policy = "tcja" ∨ policy = "house25" ∨ policy = "senate25")
    (refund : String) (ctc u6 : Int) (ps refund2 : String) (ctc2 u62 : Int) (ps2 : String) :
    filter_data df policy refund ctc u6 ps = filter_data df policy refund2 ctc2 u62 ps2 := by
  rcases hp with rfl | rfl | rfl | rfl <;> rfl

theorem C10_witness :
    filter_data namedDf "cl" "Nonref" 2000 0 "CL" =
      filter_data namedDf "cl" "Refund" 3500 1000 "NO" :=
  C10_named_ignores_custom_params namedDf "cl" (Or.inl rfl) "Nonref" 2000 0 "CL" "Refund" 3500 1000 "NO"

theorem tableRows_complete (spec : List (String × String)) (bv rv : Dict)
    (h : ∀ lk ∈ spec, (bv.lookup lk.2).isSome ∧ (rv.lookup lk.2).isSome) :
    ∃ rows, tableRows spec bv rv = Except.ok rows ∧
      rows.length = spec.length ∧
      rows.map (fun t => t.1) = spec.map (fun lk => lk.1) ∧
      ∀ t ∈ rows, ∃ lk ∈ spec, bv.lookup lk.2 = some t.2.1 ∧ rv.lookup lk.2 = some t.2.2 := by
  induction spec with
  | nil => exact ⟨[], rfl, rfl, rfl, by intro t ht; cases ht⟩
  | cons hd tl ih =>
    obtain ⟨hb, hr⟩ := h hd (List.mem_cons_self hd tl)
    obtain ⟨b, hb⟩ := Option.isSome_iff_exists.mp hb
    obtain ⟨r, hr⟩ := Option.isSome_iff_exists.mp hr
    obtain ⟨rows, hok, hlen, hlab, hval⟩ :=
      ih (fun lk hlk => h lk (List.mem_cons_of_mem hd hlk))
    refine ⟨(hd.1, b, r) :: rows, ?_, ?_, ?_, ?_⟩
    · simp only [tableRows, dictGet, hb, hr, hok]
      rfl
    · simp [hlen]
    · simp [hlab]
    · intro t ht
      rcases List.mem_cons.mp ht with rfl | htl
      · exact ⟨hd, List.mem_cons_self hd tl, hb, hr⟩
      · obtain ⟨lk, hlk, hv⟩ := hval t htl
        exact ⟨lk, List.mem_cons_of_mem hd hlk, hv⟩

theorem tableRows_missing (spec : List (String × String)) (bv rv : Dict)
    (h : ∃ lk ∈ spec, bv.lookup lk.2 = none ∨ rv.lookup lk.2 = none) :
    ∃ k, tableRows spec bv rv = Except.error (PyErr.keyError k) ∧
      (bv.lookup k = none ∨ rv.lookup k = none) := by
  induction spec with
  | nil => obtain ⟨lk, hlk, _⟩ := h; cases hlk
  | cons hd tl ih =>
    cases hb : bv.lookup hd.2 with
    | none =>
      refine ⟨hd.2, ?_, Or.inl hb⟩
      simp only [tableRows, dictGet, hb]
      rfl
    | some b =>
      cases hr : rv.lookup hd.2 with
      | none =>
        refine ⟨hd.2, ?_, Or.inr hr⟩
        simp only [tableRows, dictGet, hb, hr]
        rfl
      | some r =>
        obtain ⟨lk, hlk, hmiss⟩ := h
        rcases List.mem_cons.mp hlk with rfl | htl
        · rcases hmiss with hm | hm
          · rw [hb] at hm; cases hm
          · rw [hr] at hm; cases hm
        · obtain ⟨k, hk, hmk⟩ := ih ⟨lk, htl, hmiss⟩
          refine ⟨k, ?_, hmk⟩
          simp only [tableRows, dictGet, hb, hr, hk]
          rfl

theorem tableRows_ok_complete (spec : List (String × String)) (bv rv : Dict)
    (rows : List (String × Val × Val)) (hok : tableRows spec bv rv = Except.ok rows) :
    ∀ lk ∈ spec, (bv.lookup lk.2).isSome ∧ (rv.lookup lk.2).isSome := by
  intro lk hlk
  by_contra hcon
  rw [not_and_or] at hcon
  have hmiss : bv.lookup lk.2 = none ∨ rv.lookup lk.2 = none := by
    rcases hcon with hc | hc
    · exact Or.inl (Option.not_isSome_iff_eq_none.mp hc)
    · exact Or.inr (Option.not_isSome_iff_eq_none.mp hc)
  obtain ⟨k, hk, _⟩ := tableRows_missing spec bv rv ⟨lk, hlk, hmiss⟩
  rw [hok] at hk
  cases hk

theorem diffs_ok (rows : List (String × Val × Val))
    (h : ∀ t ∈ rows, (∃ q, t.2.1 = Val.num q) ∧ ∃ q, t.2.2 = Val.num q) :
    ∃ ds, diffsOf rows = Except.ok ds ∧ ds.length = rows.length := by
  induction rows with
  | nil => exact ⟨[], rfl, rfl⟩
  | cons hd tl ih =>
    obtain ⟨⟨qb, hqb⟩, ⟨qr, hqr⟩⟩ := h hd (List.mem_cons_self hd tl)
    obtain ⟨ds, hds, hlen⟩ := ih (fun t ht => h t (List.mem_cons_of_mem hd ht))
    refine ⟨pyRound1 (qr - qb) :: ds, ?_, by simp [hlen]⟩
    simp only [diffsOf, hqb, hqr, vsub, hds]
    rfl

theorem bind_ok_l {α β : Type} (a : α) (f : α → Except PyErr β) :
    (Except.ok a >>= f) = f a := rfl

theorem bind_err_l {α β : Type} (e : PyErr) (f : α → Except PyErr β) :
    ((Except.error e : Except PyErr α) >>= f) = Except.error e := rfl

theorem pure_eq_ok {α : Type} (a : α) : (pure a : Except PyErr α) = Except.ok a := rfl

theorem build_summary_rows_err (bv rv : Dict) (e : PyErr)
    (h : tableRows summarySpec bv rv = Except.error e) :
    build_summary_table bv rv = Except.error e := by
  unfold build_summary_table
  rw [h, bind_err_l]

theorem build_param_rows_err (bv rv : Dict) (e : PyErr)
    (h : tableRows paramSpec bv rv = Except.error e) :
    build_param_table bv rv = Except.error e := by
  unfold build_param_table
  rw [h, bind_err_l]

theorem build_summary_ok_rows (bv rv : Dict) (fig : Figure)
    (h : build_summary_table bv rv = Except.ok fig) :
    ∃ rows, tableRows summarySpec bv rv = Except.ok rows := by
  cases ht : tableRows summarySpec bv rv with
  | error e => rw [build_summary_rows_err bv rv e ht] at h; cases h
  | ok rows => exact ⟨rows, rfl⟩

theorem build_param_ok_rows (bv rv : Dict) (fig : Figure)
    (h : build_param_table bv rv = Except.ok fig) :
    ∃ rows, tableRows paramSpec bv rv = Except.ok rows := by
  cases ht : tableRows paramSpec bv rv with
  | error e => rw [build_param_rows_err bv rv e ht] at h; cases h
  | ok rows => exact ⟨rows, rfl⟩

/-- C5 (amended): a required field missing from either input dict makes
the builder fail with a `KeyError` naming a missing field, and a builder
that succeeds read every required field from both dicts, so no default
value is ever silently substituted.  The error value does not identify
the scenario side. -/
theorem C5_missing_field_keyerror (bv rv : Dict) :
    (∀ fig, build_summary_table bv rv = Except.ok fig →
       ∀ lk ∈ summarySpec, (bv.lookup lk.2).isSome ∧ (rv.lookup lk.2).isSome) ∧
    (∀ lk ∈ summarySpec, (bv.lookup lk.2 = none ∨ rv.lookup lk.2 = none) →
       ∃ k, build_summary_table bv rv = Except.error (PyErr.keyError k) ∧
         (bv.lookup k = none ∨ rv.lookup k = none)) ∧
    (∀ fig, build_param_table bv rv = Except.ok fig →
       ∀ lk ∈ paramSpec, (bv.lookup lk.2).isSome ∧ (rv.lookup lk.2).isSome) ∧
    (∀ lk ∈ paramSpec, (bv.lookup lk.2 = none ∨ rv.lookup lk.2 = none) →
       ∃ k, build_param_table bv rv = Except.error (PyErr.keyError k) ∧
         (bv.lookup k = none ∨ rv.lookup k = none)) := by
  refine ⟨?_, ?_, ?_, ?_⟩
  · intro fig hfig
    obtain ⟨rows, hrows⟩ := build_summary_ok_rows bv rv fig hfig
    exact tableRows_ok_complete summarySpec bv rv rows hrows
  · intro lk hlk hmiss
    obtain ⟨k, hk, hmk⟩ := tableRows_missing summarySpec bv rv ⟨lk, hlk, hmiss⟩
    exact ⟨k, build_summary_rows_err bv rv _ hk, hmk⟩
  · intro fig hfig
    obtain ⟨rows, hrows⟩ := build_param_ok_rows bv rv fig hfig
    exact tableRows_ok_complete paramSpec bv rv rows hrows
  · intro lk hlk hmiss
    obtain ⟨k, hk, hmk⟩ := tableRows_missing paramSpec bv rv ⟨lk, hlk, hmiss⟩
    exact ⟨k, build_param_rows_err bv rv _ hk, hmk⟩

theorem C5_witness :
    ∃ k, build_summary_table sumNoMean sumR = Except.error (PyErr.keyError k) ∧
      (sumNoMean.lookup k = none ∨ sumR.lookup k = none) :=
  (C5_missing_field_keyerror sumNoMean sumR).2.1 ("Average Total Benefit ($)", "mean")
    (by decide) (Or.inl (by decide))

theorem C5_counterexample :
    build_summary_table sumNoMean sumR = Except.error (PyErr.keyError "mean") ∧
    build_summary_table sumB sumNoMean = Except.error (PyErr.keyError "mean") :=
  ⟨rfl, rfl⟩

/-- C6: for complete input dicts each builder succeeds, the summary view
has four columns of seven rows and the parameter view three columns of
eight rows, and the label column lists the field specification labels in
exactly the specification order. -/
theorem C6_row_count_order (bv rv : Dict) :
    ((∀ lk ∈ summarySpec, (∃ q : ℚ, bv.lookup lk.2 = some (Val.num q)) ∧
        ∃ q : ℚ, rv.lookup lk.2 = some (Val.num q)) →
      ∃ fig, build_summary_table bv rv = Except.ok fig ∧
        fig.cells.length = 4 ∧ (∀ col ∈ fig.cells, col.length = 7) ∧
        fig.cells.head? = some (summarySpec.map (fun lk => Val.str lk.1)) ∧
        summarySpec.length = 7) ∧
    ((∀ lk ∈ paramSpec, (bv.lookup lk.2).isSome ∧ (rv.lookup lk.2).isSome) →
      ∃ fig, build_param_table bv rv = Except.ok fig ∧
        fig.cells.length = 3 ∧ (∀ col ∈ fig.cells, col.length = 8) ∧
        fig.cells.head? = some (paramSpec.map (fun lk => Val.str lk.1)) ∧
        paramSpec.length = 8) := by
  constructor
  · intro h
    have hc : ∀ lk ∈ summarySpec, (bv.lookup lk.2).isSome ∧ (rv.lookup lk.2).isSome := by
      intro lk hlk
      obtain ⟨⟨qb, hb⟩, ⟨qr, hr⟩⟩ := h lk hlk
      exact ⟨by simp [hb], by simp [hr]⟩
    obtain ⟨rows, hok, hlen, hlab, hval⟩ := tableRows_complete summarySpec bv rv hc
    have hnum : ∀ t ∈ rows, (∃ q, t.2.1 = Val.num q) ∧ ∃ q, t.2.2 = Val.num q := by
      intro t ht
      obtain ⟨lk, hlk, hbv, hrv⟩ := hval t ht
      obtain ⟨⟨qb, hb⟩, ⟨qr, hr⟩⟩ := h lk hlk
      rw [hb] at hbv
      rw [hr] at hrv
      exact ⟨⟨qb, (Option.some_inj.mp hbv).symm⟩, ⟨qr, (Option.some_inj.mp hrv).symm⟩⟩
    obtain ⟨ds, hds, hdlen⟩ := diffs_ok rows hnum
    have hlabel : rows.map (fun t => Val.str t.1) = summarySpec.map (fun lk => Val.str lk.1) := by
      have h2 := congrArg (List.map Val.str) hlab
      simpa [List.map_map, Function.comp] using h2
    refine ⟨⟨["", "Baseline Policy", "Reform Policy", "Difference"],
        [rows.map (fun t => Val.str t.1), rows.map (fun t => t.2.1),
         rows.map (fun t => t.2.2), ds.map Val.num],
        "Comparing Baseline and Reform"⟩, ?_, ?_, ?_, ?_, rfl⟩
    · unfold build_summary_table
      rw [hok, bind_ok_l, hds, bind_ok_l, pure_eq_ok]
    · rfl
    · intro col hcol
      have hlen7 : rows.length = 7 := hlen
      rcases List.mem_cons.mp hcol with rfl | hcol
      · simp [hlen7]
      rcases List.mem_cons.mp hcol with rfl | hcol
      · simp [hlen7]
      rcases List.mem_cons.mp hcol with rfl | hcol
      · simp [hlen7]
      rcases List.mem_cons.mp hcol with rfl | hcol
      · simp [hdlen, hlen7]
      cases hcol
    · simp [hlabel]
  · intro h
    obtain ⟨rows, hok, hlen, hlab, hval⟩ := tableRows_complete paramSpec bv rv h
    have hlabel : rows.map (fun t => Val.str t.1) = paramSpec.map (fun lk => Val.str lk.1) := by
      have h2 := congrArg (List.map Val.str) hlab
      simpa [List.map_map, Function.comp] using h2
    refine ⟨⟨["", "Baseline Policy", "Reform Policy"],
        [rows.map (fun t => Val.str t.1), rows.map (fun t => t.2.1),
         rows.map (fun t => t.2.2)],
        "Policy Parameters"⟩, ?_, ?_, ?_, ?_, rfl⟩
    · unfold build_param_table
      rw [hok, bind_ok_l, pure_eq_ok]
    · rfl
    · intro col hcol
      have hlen8 : rows.length = 8 := hlen
      rcases List.mem_cons.mp hcol with rfl | hcol
      · simp [hlen8]
      rcases List.mem_cons.mp hcol with rfl | hcol
      · simp [hlen8]
      rcases List.mem_cons.mp hcol with rfl | hcol
      · simp [hlen8]
      cases hcol
    · simp [hlabel]

theorem C6_witness :
    ∃ fig, build_summary_table sumB sumR = Except.ok fig ∧
      fig.cells.length = 4 ∧ (∀ col ∈ fig.cells, col.length = 7) ∧
      fig.cells.head? = some (summarySpec.map (fun lk => Val.str lk.1)) ∧
      summarySpec.length = 7 :=
  (C6_row_count_order sumB sumR).1 (by
    intro lk hlk
    simp only [summarySpec, List.mem_cons, List.not_mem_nil, or_false] at hlk
    rcases hlk with rfl | rfl | rfl | rfl | rfl | rfl | rfl <;>
      exact ⟨⟨_, rfl⟩, ⟨_, rfl⟩⟩)

/-- C4 (amended): in the summary view every output row is the label, the
baseline value, the reform value, and `round(reform - baseline, 1)` with
the single fixed half-to-even rounding of the Python built-in `round`
applied to every row; the worked example rounds to -25.3; the parameter
view carries no difference column at all. -/
theorem C4_difference_rounding (b1 b2 b3 b4 b5 b6 b7 r1 r2 r3 r4 r5 r6 r7 : ℚ) :
    build_summary_table (mkSummaryDict b1 b2 b3 b4 b5 b6 b7)
        (mkSummaryDict r1 r2 r3 r4 r5 r6 r7) =
      Except.ok
        { headers := ["", "Baseline Policy", "Reform Policy", "Difference"],
          cells := [summarySpec.map (fun lk => Val.str lk.1),
                    [Val.num b1, Val.num b2, Val.num b3, Val.num b4,
                     Val.num b5, Val.num b6, Val.num b7],
                    [Val.num r1, Val.num r2, Val.num r3, Val.num r4,
                     Val.num r5, Val.num r6, Val.num r7],
                    [Val.num (pyRound1 (r1 - b1)), Val.num (pyRound1 (r2 - b2)),
                     Val.num (pyRound1 (r3 - b3)), Val.num (pyRound1 (r4 - b4)),
                     Val.num (pyRound1 (r5 - b5)), Val.num (pyRound1 (r6 - b6)),
                     Val.num (pyRound1 (r7 - b7))]],
          title := "Comparing Baseline and Reform" } ∧
    (∀ p1 p2 p3 p4 p5 p6 p7 p8 q1 q2 q3 q4 q5 q6 q7 q8 : ℚ,
      build_param_table (mkParamDict p1 p2 p3 p4 p5 p6 p7 p8)
          (mkParamDict q1 q2 q3 q4 q5 q6 q7 q8) =
        Except.ok
          { headers := ["", "Baseline Policy", "Reform Policy"],
            cells := [paramSpec.map (fun lk => Val.str lk.1),
                      [Val.num p1, Val.num p2, Val.num p3, Val.num p4,
                       Val.num p5, Val.num p6, Val.num p7, Val.num p8],
                      [Val.num q1, Val.num q2, Val.num q3, Val.num q4,
                       Val.num q5, Val.num q6, Val.num q7, Val.num q8]],
            title := "Policy Parameters" }) ∧
    pyRound1 ((951 : ℚ) / 10 - 1204 / 10) = -(253 / 10) := by
  refine ⟨rfl, fun p1 p2 p3 p4 p5 p6 p7 p8 q1 q2 q3 q4 q5 q6 q7 q8 => rfl, ?_⟩
  have h1 : (951 : ℚ) / 10 - 1204 / 10 = -(253 / 10) := by norm_num
  rw [h1]
  unfold pyRound1
  have h2 : (10 : ℚ) * -(253 / 10) = -253 := by norm_num
  rw [h2]
  have h3 : roundHalfEven (-253) = -253 := rfl
  rw [h3]
  norm_num

theorem C4_counterexample :
    build_param_table parB parR = Except.ok
      { headers := ["", "Baseline Policy", "Reform Policy"],
        cells := [paramSpec.map (fun lk => Val.str lk.1),
                  [Val.num 2000, Val.num 0, Val.num 1700, Val.num 16,
                   Val.num 2500, Val.num 15, Val.num 400000, Val.num 5],
                  [Val.num 3000, Val.num 500, Val.num 1700, Val.num 16,
                   Val.num 2500, Val.num 15, Val.num 400000, Val.num 5]],
        title := "Policy Parameters" } ∧
    (build_param_table parB parR).map (fun f => f.cells.length) = Except.ok 3 :=
  ⟨rfl, rfl⟩

/-- C9 (amended): the summary render output consists of exactly the four
header labels, the seven field-row labels, and the figure title; no
footnote string is included. -/
theorem C9_summary_texts (b1 b2 b3 b4 b5 b6 b7 r1 r2 r3 r4 r5 r6 r7 : ℚ) :
    (build_summary_table (mkSummaryDict b1 b2 b3 b4 b5 b6 b7)
        (mkSummaryDict r1 r2 r3 r4 r5 r6 r7)).map figStrings =
      Except.ok (["", "Baseline Policy", "Reform Policy", "Difference"]
        ++ summarySpec.map (fun lk => lk.1)
        ++ ["Comparing Baseline and Reform"]) := rfl

theorem C9_counterexample :
    (build_summary_table sumB sumR).map figStrings =
      Except.ok ["", "Baseline Policy", "Reform Policy", "Difference",
        "Annual Value of All Child Tax Benefits (2025 $)",
        "Annual Value of Child Tax Credit (2025 $)",
        "Average Total Benefit ($)",
        "Percent Change in After-Tax Income (%)",
        "EMTR on Labor (%)",
        "SPM Poverty Rate - Total U.S. (%)",
        "SPM Poverty Rate - Under 18 (%)",
        "Comparing Baseline and Reform"] := rfl

/-- C8: resolving and building is deterministic, since the embedded
operations are pure functions of the datasets and the selection: two
calls with identical inputs give identical figures, and filtering never
rearranges or rewrites the dataset, of which the result is a
subsequence. -/
theorem C8_resolve_build_deterministic (bud pov dist par df : DataFrame)
    (base reform refund policy : String) (ctc u6 : Int) (ps tabs : String) :
    update_graph bud pov dist par base reform refund ctc u6 ps tabs =
      update_graph bud pov dist par base reform refund ctc u6 ps tabs ∧
    (filter_data df policy refund ctc u6 ps).Sublist df := by
  refine ⟨rfl, ?_⟩
  unfold filter_data
  split
  · split
    · exact List.filter_sublist df
    · exact List.nil_sublist df
  · split
    · exact List.filter_sublist df
    · exact List.nil_sublist df

theorem make_vals_nil_bud (pov dist par : DataFrame) :
    make_vals [] pov dist par = Except.error PyErr.indexError := rfl

/-- C1 (amended): a resolver that finds zero matching rows returns a
distinguishable empty frame, but the render callback raises IndexError
while extracting values from it rather than producing a message: with an
empty baseline budget frame the callback always errors, and likewise on
the reform side once the baseline side extracted successfully. -/
theorem C1_zero_rows_raises (bud pov dist par : DataFrame)
    (base reform refund : String) (ctc u6 : Int) (ps tabs : String) :
    (filter_data bud base refund ctc u6 ps = [] →
      update_graph bud pov dist par base reform refund ctc u6 ps tabs =
        Except.error PyErr.indexError) ∧
    ((∃ bvals, make_vals (filter_data bud base refund ctc u6 ps)
        (filter_data pov base refund ctc u6 ps)
        (filter_data dist base refund ctc u6 ps)
        (filter_data par base refund ctc u6 ps) = Except.ok bvals) →
      filter_data bud reform refund ctc u6 ps = [] →
      update_graph bud pov dist par base reform refund ctc u6 ps tabs =
        Except.error PyErr.indexError) := by
  constructor
  · intro h
    unfold update_graph
    rw [h, make_vals_nil_bud, bind_err_l]
  · rintro ⟨bvals, hb⟩ hre
    unfold update_graph
    rw [hb, bind_ok_l]
    rw [hre, make_vals_nil_bud, bind_err_l]

theorem C1_witness :
    update_graph budget0 poverty0 dists0 params0 "cl" "custom" "Nonref" 2500 1000 "NO" "params_tab" =
      Except.error PyErr.indexError :=
  (C1_zero_rows_raises budget0 poverty0 dists0 params0 "cl" "custom" "Nonref" 2500 1000 "NO"
    "params_tab").2 ⟨_, rfl⟩ rfl

theorem C1_counterexample :
    update_graph budget0 poverty0 dists0 params0 "cl" "custom" "Nonref" 2500 500 "NO" "summary_tab" =
      Except.error PyErr.indexError := rfl

end TaxDash
